import Mathlib

/-!
Shallow embedding of the conversation-lifecycle and token-budget subsystem
of the OpenAI-Chat-Tool CLI repository: `ChatHistory` (src/history.py),
`ChatSummarizer` (src/summary.py) and the orchestration slice of
`ChatTool.process_message` (src/main.py).

Modelling conventions:
* Python dict-shaped message records become the `Message` structure; the
  `summary_metadata` key, present only on summary records, becomes an
  `Option SummaryMetadata` field.
* External effects are oracles passed as function arguments:
  - `enc : String → Option Nat` models `self.tokenizer.encode`
    (`some n` = encoding succeeded with `n` tokens, `none` = it raised);
  - `llm : String → Option String` models the whole summarization
    completion call (template embedding, request, and extraction of
    `response.choices[0].message.content`); `none` = the call raised;
  - `completion` models the chat completion dispatch of one turn
    (`none` = the call raised, `some s` = the accumulated reply text,
    covering both the streaming and the non-streaming mode);
  - `datetime.now()` renderings are passed in as plain strings.
* Python `str.strip()` is embedded as `pyStrip` (drop whitespace at both
  ends); Python `len(s)` is `String.length` (code points).
-/

namespace ChatToolSpec

/-- Whitespace test used by the embedding of Python `str.strip()`. -/
def wsChar (c : Char) : Bool := c.isWhitespace

/-- Strip whitespace from both ends of a character list. -/
def stripChars (l : List Char) : List Char :=
  ((l.dropWhile wsChar).reverse.dropWhile wsChar).reverse

/-- Embedding of Python `str.strip()`. -/
def pyStrip (s : String) : String := String.mk (stripChars s.data)

/-- `needle` occurs as a contiguous substring of `hay`. -/
def appearsIn (needle hay : String) : Prop := needle.data <:+: hay.data

instance (n h : String) : Decidable (appearsIn n h) := by
  unfold appearsIn
  exact List.decidableInfix n.data h.data

/-- Round a rational to three decimal places, ties to even, embedding
Python `round(x, 3)` (exact rational arithmetic stands in for the float
computation of src/summary.py line 105). -/
def round3 (q : ℚ) : ℚ :=
  let m : ℚ := q * 1000
  let f : ℤ := ⌊m⌋
  let r : ℚ := m - f
  let n : ℤ :=
    if r < 1 / 2 then f
    else if 1 / 2 < r then f + 1
    else if f % 2 = 0 then f else f + 1
  (n : ℚ) / 1000

/-- The `summary_metadata` dict built by
`ChatSummarizer._create_summary_message` (src/summary.py lines 99-106). -/
structure SummaryMetadata where
  trigger_reason : String
  original_tokens : Nat
  summarized_tokens : Nat
  summarized_message_ids : List String
  summary_model : String
  compression_ratio : ℚ
deriving DecidableEq, Repr

/-- One message record of the ledger (the dict built in
`ChatHistory.add_message`, src/history.py lines 84-91, and in
`ChatSummarizer._create_summary_message`, src/summary.py lines 92-107). -/
structure Message where
  id : String
  type : String
  timestamp : String
  role : String
  content : String
  tokens : Nat
  summary_metadata : Option SummaryMetadata
deriving DecidableEq, Repr

/-- Sum of the cached `tokens` fields, the Python
`sum(msg.get("tokens", 0) for msg in messages)` idiom. -/
def sumTokens (l : List Message) : Nat := (l.map Message.tokens).sum

/-- The in-memory session state of `ChatHistory` (src/history.py lines
27-33): the fields mutated by `add_message`, compaction installation and
`load_from_file`. -/
structure Ledger where
  session_id : String
  config_id : String
  model : String
  created_at : String
  messages : List Message
  total_tokens : Nat
deriving DecidableEq, Repr

/-- The token-accounting invariant of the spec: the cached aggregate
equals the sum of the per-message cached counts. -/
def tokenInvariant (st : Ledger) : Prop :=
  st.total_tokens = sumTokens st.messages

instance (st : Ledger) : Decidable (tokenInvariant st) := by
  unfold tokenInvariant
  exact inferInstance

/-- Embedding of `ChatHistory._count_tokens` (src/history.py lines 61-67):
try `len(self.tokenizer.encode(str(text)))`, on any exception fall back to
`len(str(text)) // 4 + 1`. -/
def count_tokens (enc : String → Option Nat) (text : String) : Nat :=
  match enc text with
  | some n => n
  | none => text.length / 4 + 1

/-- Embedding of the Python format spec `f"msg_{n:03d}"`: decimal with
zero padding to width 3. -/
def pad3 (n : Nat) : String :=
  let s := toString n
  if s.length < 3 then String.mk (List.replicate (3 - s.length) '0') ++ s else s

/-- Embedding of `ChatHistory.add_message` (src/history.py lines 69-96):
fresh id from the current list length, token count via the tokenizer,
append, increment the cached aggregate; returns the new state and the id. -/
def add_message (enc : String → Option Nat) (now : String) (st : Ledger)
    (role : String) (content : String) (message_type : String) : Ledger × String :=
  let message_id := "msg_" ++ pad3 st.messages.length
  let tokens := count_tokens enc content
  let m : Message :=
    { id := message_id, type := message_type, timestamp := now,
      role := role, content := content, tokens := tokens,
      summary_metadata := none }
  ({ st with messages := st.messages ++ [m],
             total_tokens := st.total_tokens + tokens },
   message_id)

/-- Embedding of `ChatHistory.get_messages_for_api` (src/history.py lines
98-111): the (role, content) projection in order. -/
def get_messages_for_api (st : Ledger) : List (String × String) :=
  st.messages.map (fun m => (m.role, m.content))

/-- The dict read back from a session file by `ChatHistory.load_from_file`
(src/history.py lines 226-234); every key is optional because the code
reads each with `history_data.get(key, default)`. -/
structure HistoryData where
  model : Option String
  created_at : Option String
  session_id : Option String
  config_id : Option String
  total_tokens : Option Nat
  messages : Option (List Message)
deriving DecidableEq, Repr

/-- Embedding of `ChatHistory.load_from_file` (src/history.py lines
197-239).  `fileData` abstracts the file lookup, read and JSON parse:
`none` covers every failure path (no filename containing the session id,
unreadable file, invalid JSON, non-dict JSON) - in the source all of these
return `False` before the first `self.` field assignment.  On `some`, the
six session fields are replaced using the source defaults. -/
def load_from_file (st : Ledger) (fileData : Option HistoryData)
    (now : String) (fresh_session : String) : Bool × Ledger :=
  match fileData with
  | none => (false, st)
  | some hd =>
      (true,
       { st with
         model := hd.model.getD "deepseek-chat",
         created_at := hd.created_at.getD now,
         session_id := hd.session_id.getD fresh_session,
         config_id := hd.config_id.getD st.config_id,
         total_tokens := hd.total_tokens.getD 0,
         messages := hd.messages.getD [] })

/-- Modelled from the spec: the localized role label strings
`t('summary.role_system')`, `t('summary.role_user')`,
`t('summary.role_assistant')` come from locale resource files that are not
under src/; fixed placeholder strings stand in for them (no claim depends
on their exact text). -/
def roleSystemLabel : String := "System"

/-- Modelled from the spec: placeholder for `t('summary.role_user')`. -/
def roleUserLabel : String := "User"

/-- Modelled from the spec: placeholder for `t('summary.role_assistant')`. -/
def roleAssistantLabel : String := "Assistant"

/-- Modelled from the spec: placeholder for the fixed marker string
`t('summary.context_prefix')` put before summary content. -/
def contextMark : String := "[Context Summary] "

/-- Role display name chosen in `ChatSummarizer._format_messages_for_summary`
(src/summary.py lines 54-61): localized label for the three known roles,
the raw role string otherwise. -/
def role_label (role : String) : String :=
  if role == "system" then roleSystemLabel
  else if role == "user" then roleUserLabel
  else if role == "assistant" then roleAssistantLabel
  else role

/-- One transcript line of `_format_messages_for_summary` (src/summary.py
lines 63-67): `f"[{timestamp[:19]}] {role_name}: {content}\n\n"` when the
timestamp is non-empty, `f"{role_name}: {content}\n\n"` otherwise. -/
def render_line (m : Message) : String :=
  (if m.timestamp == "" then "" else
    "[" ++ String.mk (m.timestamp.data.take 19) ++ "] ")
  ++ role_label m.role ++ ": " ++ m.content ++ "\n\n"

/-- The accumulation loop of `_format_messages_for_summary` (src/summary.py
lines 42-67): messages whose `type` is `"summary"` are skipped (line 50),
every other message contributes one line, in input order. -/
def format_raw : List Message → String
  | [] => ""
  | m :: rest => (if m.type == "summary" then "" else render_line m) ++ format_raw rest

/-- Embedding of `ChatSummarizer._format_messages_for_summary`
(src/summary.py lines 32-69): the accumulated lines with
`formatted_text.strip()` applied at the end. -/
def format_messages_for_summary (l : List Message) : String :=
  pyStrip (format_raw l)

/-- Embedding of `ChatSummarizer._create_summary_message` (src/summary.py
lines 71-109).  `smodel` is `self.model`; `now_id` renders
`datetime.now().strftime('%Y%m%d_%H%M%S')` and `now_iso`
`datetime.now().isoformat()`. -/
def create_summary_message (smodel : String) (now_id now_iso : String)
    (summary_content : String) (summarized_messages : List Message) : Message :=
  let original_tokens := sumTokens summarized_messages
  let summarized_ids := summarized_messages.map Message.id
  let summary_tokens := summary_content.length / 4 + 1
  { id := "summary_" ++ now_id,
    type := "summary",
    role := "system",
    content := contextMark ++ summary_content,
    timestamp := now_iso,
    tokens := summary_tokens,
    summary_metadata := some
      { trigger_reason := "token_threshold_reached",
        original_tokens := original_tokens,
        summarized_tokens := summary_tokens,
        summarized_message_ids := summarized_ids,
        summary_model := smodel,
        compression_ratio :=
          if 0 < original_tokens then
            round3 ((summary_tokens : ℚ) / (original_tokens : ℚ))
          else 0 } }

/-- The partition of src/summary.py line 127: `system_messages` are the
records with role `"system"` whose `type` is not `"summary"`. -/
def system_of (messages : List Message) : List Message :=
  messages.filter (fun m => m.role == "system" && !(m.type == "summary"))

/-- The partition of src/summary.py line 128: everything that is not a
plain system message, prior summaries included. -/
def non_system_of (messages : List Message) : List Message :=
  messages.filter (fun m => !(m.role == "system") || m.type == "summary")

/-- `messages_to_summarize` of src/summary.py line 134:
`non_system_messages[:-keep_recent] if keep_recent > 0 else
non_system_messages`. -/
def to_summarize_of (messages : List Message) (keep_recent : Nat) : List Message :=
  let ns := non_system_of messages
  if 0 < keep_recent then ns.take (ns.length - keep_recent) else ns

/-- `messages_to_keep` of src/summary.py line 135:
`non_system_messages[-keep_recent:] if keep_recent > 0 else []`. -/
def to_keep_of (messages : List Message) (keep_recent : Nat) : List Message :=
  let ns := non_system_of messages
  if 0 < keep_recent then ns.drop (ns.length - keep_recent) else []

/-- The body of `ChatSummarizer.summarize_messages` after its first guard
(src/summary.py lines 126-175): partition, second count guard, split,
empty-transcript guard, completion call (the `llm` oracle; `none` models
the `except` branch of lines 173-175), blank-response guard, and on
success the new list `system_messages + [summary_message] +
messages_to_keep`. -/
def summarize_core (smodel : String) (llm : String → Option String)
    (now_id now_iso : String) (messages : List Message) (keep_recent : Nat) :
    Option Message × List Message :=
  let system_messages := system_of messages
  let non_system := non_system_of messages
  if non_system.length ≤ keep_recent then (none, messages)
  else
    let messages_to_summarize := to_summarize_of messages keep_recent
    let messages_to_keep := to_keep_of messages keep_recent
    if messages_to_summarize.isEmpty then (none, messages)
    else
      let conversation_text := format_messages_for_summary messages_to_summarize
      if pyStrip conversation_text == "" then (none, messages)
      else
        match llm conversation_text with
        | none => (none, messages)
        | some raw =>
            let summary_content := pyStrip raw
            if summary_content == "" then (none, messages)
            else
              let sm := create_summary_message smodel now_id now_iso
                summary_content messages_to_summarize
              (some sm, system_messages ++ [sm] ++ messages_to_keep)

/-- Embedding of `ChatSummarizer.summarize_messages` (src/summary.py lines
111-175).  First guard (line 123): `len(messages) <= keep_recent + 1`
counts ALL messages (the `+ 1` is commented `for system message` in the
source). -/
def summarize_messages (smodel : String) (llm : String → Option String)
    (now_id now_iso : String) (messages : List Message) (keep_recent : Nat) :
    Option Message × List Message :=
  if messages.length ≤ keep_recent + 1 then (none, messages)
  else summarize_core smodel llm now_id now_iso messages keep_recent

/-- Embedding of `ChatSummarizer.should_summarize` (src/summary.py lines
177-190): `total_tokens >= max_tokens * 0.8`, written over naturals as
`8 * max ≤ 10 * total` (exact for the rational threshold 8/10; the float
literal 0.8 of the source differs from 8/10 by less than 2^-53, which no
claim depends on). -/
def should_summarize (total_tokens max_tokens : Nat) : Bool :=
  8 * max_tokens ≤ 10 * total_tokens

/-- The installation of a summarization result by the driver
(src/main.py lines 961-963 and 650-652): when a summary message was
produced, replace the message list and recompute `total_tokens` by full
resummation `sum(msg.get('tokens', 0) for msg in new_messages)`;
otherwise leave the ledger untouched. -/
def apply_summarization (st : Ledger) (res : Option Message × List Message) : Ledger :=
  match res.1 with
  | some _ => { st with messages := res.2, total_tokens := sumTokens res.2 }
  | none => st

/-- Observable outcome of one `ChatTool.process_message` turn: the final
ledger plus event flags recording whether the assistant reply was
appended, whether the summarizer was invoked, and whether
`save_to_file` was reached. -/
structure TurnResult where
  ledger : Ledger
  assistant_added : Bool
  summarize_attempted : Bool
  saved : Bool
deriving DecidableEq, Repr

/-- Embedding of the history-enabled path of `ChatTool.process_message`
(src/main.py lines 869-972): append the user message, dispatch the
completion call (`completion` oracle; `none` = the call raised, caught by
the outer `except` at line 971 so that nothing after it runs), append the
assistant reply, then, when summarization is configured and the threshold
is met, call the summarizer and install its result, and finally persist.
Note: the source call site (line 957-959) passes a third positional
argument to `summarize_messages`, whose definition (src/summary.py line
111) takes only two; run as written it would raise `TypeError` inside the
outer `try`.  The embedding models the two-argument call that both the
spec and the install code immediately below it intend. -/
def process_message (enc : String → Option Nat)
    (completion : List (String × String) → Option String)
    (smodel : String) (llm : String → Option String) (now : String)
    (summary_enabled : Bool) (max_tokens : Nat)
    (st : Ledger) (user_input : String) : TurnResult :=
  let st1 := (add_message enc now st "user" user_input "original").1
  match completion (get_messages_for_api st1) with
  | none =>
      { ledger := st1, assistant_added := false,
        summarize_attempted := false, saved := false }
  | some ai_response =>
      let st2 := (add_message enc now st1 "assistant" ai_response "original").1
      if summary_enabled && should_summarize st2.total_tokens max_tokens then
        let res := summarize_messages smodel llm now now st2.messages 3
        { ledger := apply_summarization st2 res, assistant_added := true,
          summarize_attempted := true, saved := true }
      else
        { ledger := st2, assistant_added := true,
          summarize_attempted := false, saved := true }

/-! ### Concrete fixtures used by witnesses and counterexamples -/

/-- Tokenizer oracle whose encoder always raises, forcing the fallback. -/
def encNone : String → Option Nat := fun _ => none

/-- Completion oracle that always returns the non-blank text `"S"`. -/
def llmS : String → Option String := fun _ => some "S"

/-- Completion oracle that always returns the non-blank text `"SUM"`. -/
def llmSUM : String → Option String := fun _ => some "SUM"

/-- Completion oracle that always raises. -/
def llmNone : String → Option String := fun _ => none

/-- Chat-completion dispatch oracle that always raises. -/
def completionNone : List (String × String) → Option String := fun _ => none

/-- A freshly initialised ledger, the state after `ChatHistory.__init__`. -/
def ledger0 : Ledger :=
  { session_id := "sess_0", config_id := "cfg", model := "deepseek-chat",
    created_at := "t0", messages := [], total_tokens := 0 }

/-- Shorthand for building a plain message record fixture. -/
def mkMsg (i ty ts r c : String) (tk : Nat) : Message :=
  { id := i, type := ty, timestamp := ts, role := r, content := c,
    tokens := tk, summary_metadata := none }

/-- A session file whose recorded `total_tokens` does not match its
(empty) message list: `load_from_file` installs it without validation. -/
def badFile : HistoryData :=
  { model := none, created_at := none, session_id := none, config_id := none,
    total_tokens := some 5, messages := some [] }

/-- A consistent session file (empty, zero tokens). -/
def goodFile : HistoryData :=
  { model := none, created_at := none, session_id := none, config_id := none,
    total_tokens := some 0, messages := some [] }

/-- C2 trace, step 1-3: three user messages appended to a fresh ledger. -/
def cexSt3 : Ledger :=
  (add_message encNone "t3"
    (add_message encNone "t2"
      (add_message encNone "t1" ledger0 "user" "aaaa" "original").1
      "user" "bbbb" "original").1
    "user" "cccc" "original").1

/-- C2 trace, step 4-5: install a summarization of the two oldest
messages, then append one more message. -/
def cexSt5 : Ledger :=
  (add_message encNone "t5"
    (apply_summarization cexSt3 (summarize_messages "m" llmS "T" "T" cexSt3.messages 1))
    "user" "dddd" "original").1

/-- C3 counterexample input: one system message plus five non-system
messages whose two oldest are prior summary records. -/
def cex3msgs : List Message :=
  [mkMsg "msg_000" "original" "" "system" "sp" 1,
   mkMsg "summary_a" "summary" "" "system" "old sum1" 1,
   mkMsg "summary_b" "summary" "" "system" "old sum2" 1,
   mkMsg "msg_003" "original" "" "user" "q1" 1,
   mkMsg "msg_004" "original" "" "assistant" "r1" 1,
   mkMsg "msg_005" "original" "" "user" "q2" 1]

/-- C3 witness input: one system message plus five ordinary
user/assistant messages. -/
def wsys : Message := mkMsg "msg_000" "original" "" "system" "sp" 1

/-- C3 witness non-system messages. -/
def wm1 : Message := mkMsg "msg_001" "original" "" "user" "q1" 1

/-- C3 witness non-system messages. -/
def wm2 : Message := mkMsg "msg_002" "original" "" "assistant" "r1" 1

/-- C3 witness non-system messages. -/
def wm3 : Message := mkMsg "msg_003" "original" "" "user" "q2" 1

/-- C3 witness non-system messages. -/
def wm4 : Message := mkMsg "msg_004" "original" "" "assistant" "r2" 1

/-- C3 witness non-system messages. -/
def wm5 : Message := mkMsg "msg_005" "original" "" "user" "q3" 1

/-- C4 counterexample input: four non-system messages and no system
message, so that `len(messages) <= keep_recent + 1` fires with
`keep_recent = 3` although the non-system count exceeds `keep_recent`. -/
def cex4msgs : List Message :=
  [mkMsg "msg_000" "original" "" "user" "q1" 1,
   mkMsg "msg_001" "original" "" "assistant" "r1" 1,
   mkMsg "msg_002" "original" "" "user" "q2" 1,
   mkMsg "msg_003" "original" "" "user" "q3" 1]

/-- C7 fixture: a prior summary record carrying recognisable content. -/
def cexSum : Message := mkMsg "summary_a" "summary" "" "system" "SECRETDATA" 2

/-- C7 fixture: ordinary user messages around the summary record. -/
def cexU1 : Message := mkMsg "msg_001" "original" "" "user" "hello" 2

/-- C7 fixture: ordinary user messages around the summary record. -/
def cexU2 : Message := mkMsg "msg_002" "original" "" "user" "bye" 1

/-- C9 fixture: a message whose cached token count is 3. -/
def cexTok3 : Message := mkMsg "msg_000" "original" "" "user" "x" 3

/-- C9 witness fixture: a message whose cached token count is 4. -/
def cexTok4 : Message := mkMsg "msg_000" "original" "" "user" "x" 4

/-! ### Helper lemmas about `stripChars` and transcripts -/

theorem mem_dropWhile_of_neg {α : Type} {p : α → Bool} {c : α} {l : List α}
    (hc : c ∈ l) (hp : p c = false) : c ∈ l.dropWhile p := by
  rw [← List.takeWhile_append_dropWhile p l] at hc
  rcases List.mem_append.mp hc with h | h
  · have := List.mem_takeWhile_imp h
    rw [hp] at this
    cases this
  · exact h

theorem mem_stripChars {c : Char} {l : List Char} (hc : c ∈ l)
    (hw : wsChar c = false) : c ∈ stripChars l := by
  unfold stripChars
  rw [List.mem_reverse]
  exact mem_dropWhile_of_neg (List.mem_reverse.mpr (mem_dropWhile_of_neg hc hw)) hw

theorem stripChars_decomp (l : List Char) :
    ∃ u v, l = u ++ stripChars l ++ v := by
  refine ⟨l.takeWhile wsChar,
    ((l.dropWhile wsChar).reverse.takeWhile wsChar).reverse, ?_⟩
  conv_lhs => rw [← List.takeWhile_append_dropWhile wsChar l]
  rw [List.append_assoc]
  congr 1
  rw [stripChars, ← List.reverse_append, List.takeWhile_append_dropWhile,
    List.reverse_reverse]

theorem stripChars_getLast {l : List Char} {x : Char}
    (h : (stripChars l).getLast? = some x) : wsChar x = false := by
  rw [stripChars, List.getLast?_reverse] at h
  have := List.head?_dropWhile_not wsChar (l.dropWhile wsChar).reverse
  rw [h] at this
  exact this

theorem stripChars_infix {a n b : List Char}
    (ha : ∃ c ∈ a, wsChar c = false)
    (hn : ∀ x, n.getLast? = some x → wsChar x = false) :
    ∃ a2 b2, stripChars (a ++ n ++ b) = a2 ++ n ++ b2 := by
  obtain ⟨c, hc, hcw⟩ := ha
  have had : a.dropWhile wsChar ≠ [] :=
    List.ne_nil_of_mem (mem_dropWhile_of_neg hc hcw)
  have h1 : (a ++ n ++ b).dropWhile wsChar = a.dropWhile wsChar ++ (n ++ b) := by
    rw [List.append_assoc, List.dropWhile_append]
    simp [had]
  rcases List.eq_nil_or_concat n with rfl | ⟨q, x, rfl⟩
  · exact ⟨stripChars (a ++ [] ++ b), [], by simp⟩
  · have hx : wsChar x = false := by
      apply hn
      simp [List.concat_eq_append]
    have hx' : ¬ wsChar x = true := by simp [hx]
    rw [List.concat_eq_append] at h1 ⊢
    unfold stripChars
    rw [h1]
    have h2 : (a.dropWhile wsChar ++ (q ++ [x] ++ b)).reverse
        = b.reverse ++ (x :: (q.reverse ++ (a.dropWhile wsChar).reverse)) := by
      simp [List.reverse_append]
    rw [h2, List.dropWhile_append]
    by_cases hb : (b.reverse.dropWhile wsChar).isEmpty
    · rw [if_pos hb, List.dropWhile_cons_of_neg hx']
      refine ⟨(a.dropWhile wsChar), [], ?_⟩
      simp [List.reverse_append]
    · rw [if_neg hb]
      refine ⟨a.dropWhile wsChar, (b.reverse.dropWhile wsChar).reverse, ?_⟩
      simp [List.reverse_append]

theorem stripChars_eq_nil {l : List Char} (h : stripChars l = []) :
    ∀ c ∈ l, wsChar c = true := by
  intro c hc
  by_contra hw
  have : c ∈ stripChars l :=
    mem_stripChars hc (Bool.eq_false_iff.mpr hw)
  rw [h] at this
  cases this

theorem render_line_decomp (m : Message) :
    ∃ P : List Char, (render_line m).data = P ++ m.content.data ++ ('\n' :: '\n' :: [])
      ∧ ':' ∈ P := by
  refine ⟨((if m.timestamp == "" then "" else
      "[" ++ String.mk (m.timestamp.data.take 19) ++ "] ")
      ++ role_label m.role ++ ": " : String).data, ?_, ?_⟩
  · show (render_line m).data = _
    rw [render_line]
    simp only [String.data_append, List.append_assoc]
  · have h2 : ':' ∈ (": " : String).data := by decide
    simp only [String.data_append, List.mem_append]
    tauto

theorem format_raw_decomp {m : Message} {l : List Message} (hm : m ∈ l)
    (ht : (m.type == "summary") = false) :
    ∃ A B : List Char, (format_raw l).data = A ++ (render_line m).data ++ B := by
  induction l with
  | nil => cases hm
  | cons x xs ih =>
    rcases List.mem_cons.mp hm with rfl | hmem
    · refine ⟨[], (format_raw xs).data, ?_⟩
      show ((if m.type == "summary" then "" else render_line m) ++ format_raw xs).data = _
      rw [ht]
      simp [String.data_append]
    · obtain ⟨A, B, hAB⟩ := ih hmem
      refine ⟨(if x.type == "summary" then "" else render_line x).data ++ A, B, ?_⟩
      show ((if x.type == "summary" then "" else render_line x) ++ format_raw xs).data = _
      rw [String.data_append, hAB]
      simp [List.append_assoc]

theorem colon_mem_format_raw {m : Message} {l : List Message} (hm : m ∈ l)
    (ht : (m.type == "summary") = false) : ':' ∈ (format_raw l).data := by
  obtain ⟨A, B, hAB⟩ := format_raw_decomp hm ht
  obtain ⟨P, hP, hcol⟩ := render_line_decomp m
  rw [hAB, hP]
  simp only [List.mem_append]
  tauto

theorem format_nonempty {m : Message} {l : List Message} (hm : m ∈ l)
    (ht : (m.type == "summary") = false) :
    pyStrip (format_messages_for_summary l) ≠ "" := by
  have hws : wsChar ':' = false := by decide
  have h1 : ':' ∈ stripChars (format_raw l).data :=
    mem_stripChars (colon_mem_format_raw hm ht) hws
  have h2 : ':' ∈ stripChars (stripChars (format_raw l).data) :=
    mem_stripChars h1 hws
  intro h
  have hd : stripChars (stripChars (format_raw l).data) = [] := by
    have := congrArg String.data h
    exact this
  rw [hd] at h2
  cases h2

/-- Every non-summary message of the input list has its whitespace-trimmed
content as a contiguous substring of the transcript built by
`_format_messages_for_summary`. -/
theorem content_appears_in_format {m : Message} {l : List Message} (hm : m ∈ l)
    (ht : (m.type == "summary") = false) :
    appearsIn (pyStrip m.content) (format_messages_for_summary l) := by
  obtain ⟨A, B, hAB⟩ := format_raw_decomp hm ht
  obtain ⟨P, hP, hcol⟩ := render_line_decomp m
  obtain ⟨u, v, huv⟩ := stripChars_decomp m.content.data
  set needle := stripChars m.content.data with hneedle
  have hdata : (format_raw l).data
      = (A ++ P ++ u) ++ needle ++ (v ++ ('\n' :: '\n' :: []) ++ B) := by
    rw [hAB, hP]
    conv_lhs => rw [huv]
    simp [List.append_assoc]
  have hcolA : ∃ c ∈ A ++ P ++ u, wsChar c = false := by
    refine ⟨':', ?_, by decide⟩
    simp only [List.mem_append]
    exact Or.inl (Or.inr hcol)
  have hlast : ∀ x, needle.getLast? = some x → wsChar x = false := by
    intro x hx
    exact stripChars_getLast hx
  obtain ⟨a2, b2, hstrip⟩ := stripChars_infix hcolA hlast
  show needle <:+: (format_messages_for_summary l).data
  have : (format_messages_for_summary l).data = stripChars (format_raw l).data := rfl
  rw [this, hdata]
  exact ⟨a2, b2, hstrip.symm⟩

/-! ### Guard behaviour of `summarize_messages` -/

theorem summarize_noop_of_blank_llm (smodel : String) (llm : String → Option String)
    (n1 n2 : String) (messages : List Message) (k : Nat)
    (h : ∀ p, llm p = none ∨ llm p = some "") :
    summarize_messages smodel llm n1 n2 messages k = (none, messages) := by
  unfold summarize_messages
  split_ifs with h1
  · rfl
  · unfold summarize_core
    simp only []
    split_ifs with h2 h3 h4
    · rfl
    · rfl
    · rfl
    · rcases h (format_messages_for_summary (to_summarize_of messages k)) with hp | hp
      · rw [hp]
      · rw [hp]
        simp
        rfl

theorem summarize_noop_left (smodel : String) (llm : String → Option String)
    (n1 n2 : String) (messages : List Message) (k : Nat)
    (h : (non_system_of messages).length ≤ k ∨ messages.length ≤ k + 1) :
    summarize_messages smodel llm n1 n2 messages k = (none, messages) := by
  unfold summarize_messages
  split_ifs with h1
  · rfl
  · unfold summarize_core
    simp only []
    rcases h with h | h
    · rw [if_pos h]
    · exact absurd h h1

theorem summarize_some (smodel : String) (llm : String → Option String)
    (n1 n2 : String) (messages : List Message) (k : Nat) (t : String)
    (hlen : k + 1 < messages.length)
    (hcount : k < (non_system_of messages).length)
    (hne : ∃ m ∈ to_summarize_of messages k, (m.type == "summary") = false)
    (hllm : llm (format_messages_for_summary (to_summarize_of messages k)) = some t)
    (ht : pyStrip t ≠ "") :
    summarize_messages smodel llm n1 n2 messages k
      = (some (create_summary_message smodel n1 n2 (pyStrip t) (to_summarize_of messages k)),
         system_of messages
           ++ [create_summary_message smodel n1 n2 (pyStrip t) (to_summarize_of messages k)]
           ++ to_keep_of messages k) := by
  obtain ⟨m, hm, hmt⟩ := hne
  unfold summarize_messages
  rw [if_neg (by omega)]
  unfold summarize_core
  simp only []
  rw [if_neg (by omega)]
  rw [if_neg (by simp [List.isEmpty_iff]; exact List.ne_nil_of_mem hm)]
  have hblank : (pyStrip (format_messages_for_summary (to_summarize_of messages k)) == "") = false :=
    beq_eq_false_iff_ne.mpr (format_nonempty hm hmt)
  rw [hblank]
  simp only [Bool.false_eq_true, if_false]
  rw [hllm]
  simp only []
  rw [if_neg (by simp [ht])]

theorem round3_abs (q : ℚ) : |round3 q - q| ≤ 1 / 2000 := by
  unfold round3
  simp only []
  have h0 : (0:ℚ) ≤ q * 1000 - (⌊q * 1000⌋ : ℤ) := by
    have := Int.floor_le (q * 1000)
    linarith
  have h1 : q * 1000 - (⌊q * 1000⌋ : ℤ) < 1 := by
    have := Int.lt_floor_add_one (q * 1000)
    push_cast at this
    linarith
  have key : ∀ n : ℤ, |(n:ℚ) - q * 1000| ≤ 1/2 → |(n:ℚ)/1000 - q| ≤ 1/2000 := by
    intro n hn
    have e : (n:ℚ)/1000 - q = ((n:ℚ) - q * 1000)/1000 := by ring
    rw [e, abs_div]
    have e2 : |(1000:ℚ)| = 1000 := by norm_num
    rw [e2]
    linarith [hn]
  split_ifs with hlt hgt hev
  · apply key
    rw [abs_sub_comm, abs_of_nonneg h0]
    linarith
  · apply key
    push_cast
    rw [abs_of_nonneg (by linarith)]
    linarith
  · apply key
    rw [abs_sub_comm, abs_of_nonneg h0]
    linarith
  · apply key
    push_cast
    rw [abs_of_nonneg (by linarith)]
    linarith

/-! ### Claim C1: token-accounting invariant -/

/-- C1 (amended): after `add_message` the invariant
`total_tokens = sum of message token counts` is preserved, and after the
installation of a summarization result it is re-established outright by
the full resummation; after `load_from_file` it holds provided the loaded
file is itself consistent (its recorded `total_tokens` equals the sum of
its messages' `tokens`), e.g. any file written by `save_to_file`.  The
unconditional claim fails at `load_from_file` because the source installs
the file's recorded aggregate without validation (see the
counterexample). -/
theorem C1_token_invariant (enc : String → Option Nat)
    (smodel : String) (llm : String → Option String) (now n1 n2 fresh_id : String)
    (role content mtype : String) (k : Nat) (st : Ledger) :
    (tokenInvariant st → tokenInvariant (add_message enc now st role content mtype).1)
    ∧ (tokenInvariant st →
        tokenInvariant (apply_summarization st (summarize_messages smodel llm n1 n2 st.messages k)))
    ∧ (∀ hd : HistoryData, hd.total_tokens.getD 0 = sumTokens (hd.messages.getD []) →
        tokenInvariant (load_from_file st (some hd) now fresh_id).2) := by
  refine ⟨?_, ?_, ?_⟩
  · intro h
    simp only [tokenInvariant, add_message, sumTokens] at h ⊢
    simp [List.map_append, h]
  · intro h
    rcases hres : summarize_messages smodel llm n1 n2 st.messages k with ⟨os, nl⟩
    cases os with
    | none => simpa [apply_summarization, hres] using h
    | some sm => simp [apply_summarization, hres, tokenInvariant]
  · intro hd hc
    simpa [load_from_file, tokenInvariant] using hc

/-- C1 witness: the amended statement applied at concrete inputs. -/
theorem C1_witness :
    tokenInvariant (add_message encNone "t" ledger0 "user" "hi" "original").1
    ∧ tokenInvariant (load_from_file ledger0 (some goodFile) "t" "s").2 :=
  ⟨(C1_token_invariant encNone "m" llmS "t" "T" "T" "s" "user" "hi" "original" 3 ledger0).1
      (by decide),
   (C1_token_invariant encNone "m" llmS "t" "T" "T" "s" "user" "hi" "original" 3 ledger0).2.2
      goodFile (by decide)⟩

/-- C1 counterexample: `load_from_file` succeeds on a session file whose
recorded `total_tokens` (5) does not match its empty message list, and the
invariant is then violated - the code installs the aggregate from the file
without recomputation (src/history.py lines 233-234). -/
theorem C1_counterexample :
    (load_from_file ledger0 (some badFile) "t" "s").1 = true
    ∧ ¬ tokenInvariant (load_from_file ledger0 (some badFile) "t" "s").2 := by
  constructor
  · rfl
  · decide

/-! ### Claim C2: message-id uniqueness -/

/-- C2: the claim that ids stay pairwise distinct under `add_message` and
compaction fails on the code.  Concretely: three messages are appended
(ids `msg_000`, `msg_001`, `msg_002`), a summarization of the two oldest
is installed (leaving 2 records), and the next `add_message` derives its
id from the new list length (src/history.py line 81:
`f"msg_{len(self.messages):03d}"`), producing `msg_002` a second time. -/
theorem C2_id_collision :
    cexSt5.messages.map Message.id = ["summary_T", "msg_002", "msg_002"]
    ∧ ¬ (cexSt5.messages.map Message.id).Nodup := by
  constructor
  · rfl
  · decide

/-! ### Claim C3: the summarize split for 1 system + 5 non-system -/

/-- C3 (amended): for one system message plus five non-system messages
and `keep_recent = 3`, provided the two oldest non-system messages are
not BOTH prior summary records and the completion model returns text that
is non-blank after trimming, `summarize_messages` summarizes exactly the
two oldest (their ids are recorded in the summary metadata) and returns
`system ++ [summary] ++ last three` - five messages with the most recent
three preserved verbatim.  The two provisos are forced by the source: the
transcript renderer skips summary records (src/summary.py line 50) and an
empty transcript aborts (line 144), and the model reply is stripped
before the emptiness check (line 160). -/
theorem C3_summary_shape (smodel : String) (llm : String → Option String)
    (n1 n2 : String) (sys m1 m2 m3 m4 m5 : Message) (t : String)
    (hsys : sys.role = "system") (hsysk : sys.type ≠ "summary")
    (hns : ∀ m ∈ [m1, m2, m3, m4, m5], m.role ≠ "system" ∨ m.type = "summary")
    (hnot2 : m1.type ≠ "summary" ∨ m2.type ≠ "summary")
    (hllm : llm (format_messages_for_summary [m1, m2]) = some t)
    (ht : pyStrip t ≠ "") :
    summarize_messages smodel llm n1 n2 [sys, m1, m2, m3, m4, m5] 3
      = (some (create_summary_message smodel n1 n2 (pyStrip t) [m1, m2]),
         [sys, create_summary_message smodel n1 n2 (pyStrip t) [m1, m2], m3, m4, m5])
    ∧ (create_summary_message smodel n1 n2 (pyStrip t) [m1, m2]).summary_metadata.map
        SummaryMetadata.summarized_message_ids = some [m1.id, m2.id] := by
  have bsys : (sys.role == "system" && !(sys.type == "summary")) = true := by
    simp [hsys, hsysk]
  have bsys2 : (!(sys.role == "system") || sys.type == "summary") = false := by
    simp [hsys, hsysk]
  have bmi : ∀ m ∈ [m1, m2, m3, m4, m5],
      (m.role == "system" && !(m.type == "summary")) = false
      ∧ (!(m.role == "system") || m.type == "summary") = true := by
    intro m hm
    rcases hns m hm with h | h
    · constructor <;> simp [h]
    · constructor <;> simp [h]
  obtain ⟨p1, q1⟩ := bmi m1 (by simp)
  obtain ⟨p2, q2⟩ := bmi m2 (by simp)
  obtain ⟨p3, q3⟩ := bmi m3 (by simp)
  obtain ⟨p4, q4⟩ := bmi m4 (by simp)
  obtain ⟨p5, q5⟩ := bmi m5 (by simp)
  have hsysof : system_of [sys, m1, m2, m3, m4, m5] = [sys] := by
    simp [system_of, List.filter_cons, bsys, p1, p2, p3, p4, p5]
  have hnsof : non_system_of [sys, m1, m2, m3, m4, m5] = [m1, m2, m3, m4, m5] := by
    simp [non_system_of, List.filter_cons, bsys2, q1, q2, q3, q4, q5]
  have hts : to_summarize_of [sys, m1, m2, m3, m4, m5] 3 = [m1, m2] := by
    simp [to_summarize_of, hnsof]
  have htk : to_keep_of [sys, m1, m2, m3, m4, m5] 3 = [m3, m4, m5] := by
    simp [to_keep_of, hnsof]
  have hmem : ∃ m ∈ to_summarize_of [sys, m1, m2, m3, m4, m5] 3,
      (m.type == "summary") = false := by
    rw [hts]
    rcases hnot2 with h | h
    · exact ⟨m1, by simp, by simp [h]⟩
    · exact ⟨m2, by simp, by simp [h]⟩
  have hmain := summarize_some smodel llm n1 n2 [sys, m1, m2, m3, m4, m5] 3 t
    (by simp) (by rw [hnsof]; simp) hmem (by rw [hts]; exact hllm) ht
  rw [hts, htk, hsysof] at hmain
  constructor
  · rw [hmain]
    simp
  · simp [create_summary_message]

/-- C3 witness: the amended statement applied to one system plus five
ordinary user/assistant messages. -/
theorem C3_witness :
    ∃ sm, summarize_messages "m" llmSUM "T" "T" [wsys, wm1, wm2, wm3, wm4, wm5] 3
      = (some sm, [wsys, sm, wm3, wm4, wm5]) :=
  ⟨_, (C3_summary_shape "m" llmSUM "T" "T" wsys wm1 wm2 wm3 wm4 wm5 "SUM"
        rfl (by decide) (by decide) (by decide) rfl (by decide)).1⟩

/-- C3 counterexample: a list of 1 system + 5 non-system messages whose
two oldest non-system members are prior summary records.  Although the
model oracle returns the non-empty text `"S"`, `summarize_messages`
returns `(none, messages unchanged)`: both oldest records are skipped by
the transcript renderer, the transcript is empty, and the call aborts
before reaching the model (src/summary.py lines 50 and 144-145). -/
theorem C3_counterexample :
    (system_of cex3msgs).length = 1
    ∧ (non_system_of cex3msgs).length = 5
    ∧ summarize_messages "m" llmS "T" "T" cex3msgs 3 = (none, cex3msgs) := by
  refine ⟨by decide, by decide, by decide⟩

/-! ### Claim C4: the no-op guard of summarize -/

/-- C4 (amended): `summarize_messages` is a count-based no-op when the
non-system count is at most `keep_recent` OR when the TOTAL message count
is at most `keep_recent + 1` (the first guard, src/summary.py line 123,
counts every message); only when both counts are exceeded does it split
the list and attempt compression (and then produces a summary whenever
the split contains a non-summary record and the model returns non-blank
text). -/
theorem C4_count_guard (smodel : String) (llm : String → Option String)
    (n1 n2 : String) (messages : List Message) (k : Nat) :
    ((non_system_of messages).length ≤ k ∨ messages.length ≤ k + 1 →
      summarize_messages smodel llm n1 n2 messages k = (none, messages))
    ∧ (∀ t, k + 1 < messages.length → k < (non_system_of messages).length →
        (∃ m ∈ to_summarize_of messages k, m.type ≠ "summary") →
        llm (format_messages_for_summary (to_summarize_of messages k)) = some t →
        pyStrip t ≠ "" →
        (summarize_messages smodel llm n1 n2 messages k).1
          = some (create_summary_message smodel n1 n2 (pyStrip t) (to_summarize_of messages k))) := by
  constructor
  · exact summarize_noop_left smodel llm n1 n2 messages k
  · intro t h1 h2 h3 h4 h5
    obtain ⟨m, hm, hmt⟩ := h3
    have := summarize_some smodel llm n1 n2 messages k t h1 h2
      ⟨m, hm, beq_eq_false_iff_ne.mpr hmt⟩ h4 h5
    rw [this]

/-- C4 witness: the amended statement applied at concrete inputs (a no-op
with `keep_recent = 5` and a successful compression with
`keep_recent = 1` on the same four messages). -/
theorem C4_witness :
    summarize_messages "m" llmS "T" "T" cex4msgs 5 = (none, cex4msgs)
    ∧ (summarize_messages "m" llmS "T" "T" cex4msgs 1).1
        = some (create_summary_message "m" "T" "T" (pyStrip "S") (to_summarize_of cex4msgs 1)) :=
  ⟨(C4_count_guard "m" llmS "T" "T" cex4msgs 5).1 (by decide),
   (C4_count_guard "m" llmS "T" "T" cex4msgs 1).2 "S" (by decide) (by decide)
     (by decide) rfl (by decide)⟩

/-- C4 counterexample: four non-system messages, no system message,
`keep_recent = 3` and a model oracle returning non-empty text.  The
non-system count (4) exceeds `keep_recent`, yet the call declines on
message count: the first guard `len(messages) <= keep_recent + 1`
(src/summary.py line 123) fires because it counts all messages, so no
split or compression is attempted. -/
theorem C4_counterexample :
    3 < (non_system_of cex4msgs).length
    ∧ summarize_messages "m" llmS "T" "T" cex4msgs 3 = (none, cex4msgs) := by
  refine ⟨by decide, by decide⟩

/-! ### Claim C5: summarization failure is atomic -/

/-- C5: when every completion call made during summarization either
raises or returns empty text, `summarize_messages` returns
`(none, input messages unchanged)`, and the driver's installation step
(src/main.py lines 961-963) leaves the ledger's `messages` and
`total_tokens` exactly as they were - summarization never partially
applies. -/
theorem C5_failure_atomic (smodel : String) (llm : String → Option String)
    (n1 n2 : String) (messages : List Message) (k : Nat) (st : Ledger)
    (h : ∀ p, llm p = none ∨ llm p = some "") :
    summarize_messages smodel llm n1 n2 messages k = (none, messages)
    ∧ apply_summarization st (summarize_messages smodel llm n1 n2 messages k) = st := by
  have h1 := summarize_noop_of_blank_llm smodel llm n1 n2 messages k h
  refine ⟨h1, ?_⟩
  rw [h1]
  rfl

/-- C5 witness: the statement applied with an always-raising completion
oracle at concrete inputs. -/
theorem C5_witness :
    summarize_messages "m" llmNone "T" "T" cex4msgs 1 = (none, cex4msgs)
    ∧ apply_summarization ledger0 (summarize_messages "m" llmNone "T" "T" cex4msgs 1) = ledger0 :=
  C5_failure_atomic "m" llmNone "T" "T" cex4msgs 1 ledger0 (fun _ => Or.inl rfl)

/-! ### Claim C6: the tokenizer fallback -/

/-- C6 (amended): `_count_tokens` always returns (a total function); when
the encoding backend succeeds it returns the encoder's count, and when
the backend is unavailable or throws it returns `len(text) // 4 + 1`
(floor division plus one, src/history.py line 67) - NOT
`ceil(len(text) / 4)` as claimed (see the counterexample). -/
theorem C6_count_tokens (enc : String → Option Nat) (text : String) :
    (∀ n, enc text = some n → count_tokens enc text = n)
    ∧ (enc text = none → count_tokens enc text = text.length / 4 + 1) := by
  constructor
  · intro n h
    simp [count_tokens, h]
  · intro h
    simp [count_tokens, h]

/-- C6 witness: the amended statement applied to a failing encoder and a
concrete text. -/
theorem C6_witness : count_tokens encNone "abcd" = "abcd".length / 4 + 1 :=
  (C6_count_tokens encNone "abcd").2 rfl

/-- C6 counterexample: on the four-character text `"abcd"` the fallback
returns `4 // 4 + 1 = 2`, while `ceil(4 / 4) = (4 + 3) / 4 = 1`. -/
theorem C6_counterexample :
    count_tokens encNone "abcd" = 2 ∧ ("abcd".length + 3) / 4 = 1
    ∧ count_tokens encNone "abcd" ≠ ("abcd".length + 3) / 4 := by
  refine ⟨rfl, rfl, by decide⟩

/-! ### Claim C7: transcript contents -/

/-- C7 (amended): for every message of `to_summarize` whose kind is NOT
`summary`, the transcript built by `_format_messages_for_summary`
contains that message's whitespace-trimmed content as a contiguous
substring.  Prior summary records in `to_summarize` are skipped by the
renderer (src/summary.py line 50), contrary to the original claim (see
the counterexample); the trimming qualification is forced by the final
`formatted_text.strip()` (line 69), which can erase edge whitespace of
the last rendered content. -/
theorem C7_transcript_content (messages : List Message) (k : Nat) (m : Message)
    (hm : m ∈ to_summarize_of messages k) (ht : m.type ≠ "summary") :
    appearsIn (pyStrip m.content) (format_messages_for_summary (to_summarize_of messages k)) :=
  content_appears_in_format hm (beq_eq_false_iff_ne.mpr ht)

/-- C7 witness: the amended statement applied to a concrete split. -/
theorem C7_witness :
    appearsIn (pyStrip cexU1.content)
      (format_messages_for_summary (to_summarize_of [cexSum, cexU1, cexU2] 1)) :=
  C7_transcript_content [cexSum, cexU1, cexU2] 1 cexU1 (by decide) (by decide)

/-- C7 counterexample: a prior summary record is in `to_summarize`, yet
its content does not occur anywhere in the submitted transcript, because
the renderer skips summary-kind messages. -/
theorem C7_counterexample :
    cexSum ∈ to_summarize_of [cexSum, cexU1, cexU2] 1
    ∧ ¬ appearsIn cexSum.content
        (format_messages_for_summary (to_summarize_of [cexSum, cexU1, cexU2] 1)) := by
  refine ⟨by decide, by decide⟩

/-! ### Claim C8: a raising completion call ends the turn -/

/-- C8: when the completion dispatch of a turn raises, `process_message`
ends with no assistant message appended, the summarizer never invoked and
no persist performed, while the ledger equals its state immediately after
the user-message append - in particular the user message remains, as the
second conjunct spells out. -/
theorem C8_completion_exception (enc : String → Option Nat)
    (completion : List (String × String) → Option String)
    (smodel : String) (llm : String → Option String) (now : String)
    (summary_enabled : Bool) (max_tokens : Nat) (st : Ledger) (user_input : String)
    (h : completion (get_messages_for_api (add_message enc now st "user" user_input "original").1) = none) :
    process_message enc completion smodel llm now summary_enabled max_tokens st user_input
      = { ledger := (add_message enc now st "user" user_input "original").1,
          assistant_added := false, summarize_attempted := false, saved := false }
    ∧ (process_message enc completion smodel llm now summary_enabled max_tokens st user_input).ledger.messages
      = st.messages
        ++ [{ id := "msg_" ++ pad3 st.messages.length, type := "original", timestamp := now,
              role := "user", content := user_input,
              tokens := count_tokens enc user_input, summary_metadata := none }] := by
  have h1 : process_message enc completion smodel llm now summary_enabled max_tokens st user_input
      = { ledger := (add_message enc now st "user" user_input "original").1,
          assistant_added := false, summarize_attempted := false, saved := false } := by
    simp only [process_message]
    rw [h]
  refine ⟨h1, ?_⟩
  rw [h1]
  rfl

/-- C8 witness: the statement applied with an always-raising completion
dispatch at a concrete turn. -/
theorem C8_witness :
    process_message encNone completionNone "m" llmS "t" true 100 ledger0 "hi"
      = { ledger := (add_message encNone "t" ledger0 "user" "hi" "original").1,
          assistant_added := false, summarize_attempted := false, saved := false } :=
  (C8_completion_exception encNone completionNone "m" llmS "t" true 100 ledger0 "hi" rfl).1

/-! ### Claim C9: compression ratio -/

/-- C9 (amended): computing the compression ratio never divides by zero:
when the summed token count of the summarized messages is zero the stored
ratio is 0, and when it is positive the stored ratio is the quotient
`summarized_tokens / original_tokens` ROUNDED to three decimal places
(src/summary.py line 105 applies `round(_, 3)`, so exact equality with
the quotient fails - see the counterexample); the rounded value is within
1/2000 of the exact quotient. -/
theorem C9_compression_ratio (smodel n1 n2 content : String) (msgs : List Message) :
    ∀ md, (create_summary_message smodel n1 n2 content msgs).summary_metadata = some md →
      (sumTokens msgs = 0 → md.compression_ratio = 0)
      ∧ (0 < sumTokens msgs →
          md.compression_ratio
            = round3 (((content.length / 4 + 1 : Nat) : ℚ) / (sumTokens msgs : ℚ))
          ∧ |md.compression_ratio - ((content.length / 4 + 1 : Nat) : ℚ) / (sumTokens msgs : ℚ)|
              ≤ 1 / 2000) := by
  intro md hmd
  simp only [create_summary_message, Option.some.injEq] at hmd
  subst hmd
  constructor
  · intro hz
    simp [hz]
  · intro hpos
    constructor
    · simp [if_pos hpos]
    · have hb := round3_abs (((content.length / 4 + 1 : Nat) : ℚ) / (sumTokens msgs : ℚ))
      simpa [if_pos hpos] using hb

/-- C9 witness: the amended statement applied at a concrete summary whose
originals hold 4 tokens; the stored ratio is `round3 (1/4)`. -/
theorem C9_witness :
    ∃ md, (create_summary_message "m" "T" "T" "" [cexTok4]).summary_metadata = some md
      ∧ md.compression_ratio = round3 ((1 : ℚ) / 4) := by
  refine ⟨_, rfl, ?_⟩
  have h := (C9_compression_ratio "m" "T" "T" "" [cexTok4] _ rfl).2 (by decide)
  rw [h.1]
  congr 1

/-- C9 counterexample: with 3 original tokens and a 1-token summary the
stored ratio is `round(1/3, 3) = 333/1000`, which is not equal to the
exact quotient `1/3` the claim asserts. -/
theorem C9_counterexample :
    (create_summary_message "m" "T" "T" "" [cexTok3]).summary_metadata.map
      SummaryMetadata.original_tokens = some 3
    ∧ (create_summary_message "m" "T" "T" "" [cexTok3]).summary_metadata.map
        SummaryMetadata.summarized_tokens = some 1
    ∧ (create_summary_message "m" "T" "T" "" [cexTok3]).summary_metadata.map
        SummaryMetadata.compression_ratio = some (333 / 1000)
    ∧ ((333 : ℚ) / 1000) ≠ 1 / 3 := by
  refine ⟨rfl, rfl, ?_, by norm_num⟩
  show some (if 0 < sumTokens [cexTok3] then
      round3 ((("".length / 4 + 1 : Nat) : ℚ) / ((sumTokens [cexTok3] : ℚ))) else 0)
    = some (333 / 1000)
  norm_num [sumTokens, cexTok3, mkMsg]
  unfold round3
  norm_num [Int.floor_eq_iff]

/-! ### Claim C10: load is atomic on failure -/

/-- C10: whenever `load_from_file` returns false (no matching file,
unreadable file, invalid JSON) every in-memory session field - model,
created_at, session_id, config_id, total_tokens and messages - is exactly
what it was before the call; in the source every failure path returns
before the first field assignment. -/
theorem C10_load_atomic (st : Ledger) (fileData : Option HistoryData)
    (now fresh_id : String)
    (h : (load_from_file st fileData now fresh_id).1 = false) :
    (load_from_file st fileData now fresh_id).2 = st := by
  cases fileData with
  | none => rfl
  | some hd => simp [load_from_file] at h

/-- C10 witness: the statement applied to a failing lookup on a concrete
ledger. -/
theorem C10_witness : (load_from_file ledger0 none "t" "s").2 = ledger0 :=
  C10_load_atomic ledger0 none "t" "s" rfl

end ChatToolSpec
